import Mathlib

/-!
Shallow embedding of the Memory Master card-matching game
(src/src/components/MemoryGame.tsx, src/src/types/game.ts).

The React component's state hooks become fields of `GameState`; the event
handlers become pure state-transition functions; the nondeterministic
shuffle (`sort(() => Math.random() - 0.5)`) becomes an explicit
`shuffled : List String` parameter standing for the shuffled emoji list;
the two `setTimeout` resolution callbacks become explicit `PendingCommit`
values stored in a queue, fired by a separate event (the source stores no
timeout handle and never calls `clearTimeout`, so `initializeGame` leaves
the queue untouched).
-/

/-- Structure Card from src/src/types/game.ts. -/
structure Card where
  id : Nat
  emoji : String
  isFlipped : Bool
  isMatched : Bool
deriving Repr, DecidableEq

/-- Structure GameStats from src/src/types/game.ts. The source field `matches`
is a Lean keyword, so it is spelled `matchCount` here. -/
structure GameStats where
  moves : Nat
  matchCount : Nat
  timeElapsed : Nat
  isGameComplete : Bool
deriving Repr, DecidableEq

/-- Type Difficulty from src/src/types/game.ts. -/
inductive Difficulty where
  | easy
  | medium
  | hard
deriving Repr, DecidableEq

/-- The `CARD_EMOJIS` catalog (MemoryGame.tsx line 9), verbatim.
Note the catalog holds 18 entries and the dart emoji appears at both
index 1 and index 13. -/
def CARD_EMOJIS : List String :=
  ["🎮", "🎯", "🎲", "🎪", "🎨", "🎭", "🎸", "🎺", "🎻", "🎹",
   "🎤", "🎧", "🎬", "🎯", "🎊", "🎉", "🎁", "🎀"]

/-- Field gridSize of DIFFICULTY_CONFIG[difficulty] (MemoryGame.tsx lines 11-15). -/
def gridSize : Difficulty → Nat
  | .easy => 4
  | .medium => 6
  | .hard => 8

/-- Constant totalCards in `initializeGame` (line 83): the number of pairs,
`gridSize * gridSize / 2`. -/
def totalCards (d : Difficulty) : Nat :=
  gridSize d * gridSize d / 2

/-- Computation selectedEmojis = CARD_EMOJIS.slice(0, totalCards) (line 84).
JavaScript `slice` silently truncates when the catalog is shorter than
requested, exactly as `List.take` does. -/
def selectedEmojis (d : Difficulty) : List String :=
  CARD_EMOJIS.take (totalCards d)

/-- Computation pairedEmojis = [...selectedEmojis, ...selectedEmojis] (line 85). -/
def pairedEmojis (d : Difficulty) : List String :=
  selectedEmojis d ++ selectedEmojis d

/-- The `.map((emoji, index) => ({id: index, emoji, isFlipped: false,
isMatched: false}))` stage of deck construction (lines 89-94), applied to
the already-shuffled emoji list. -/
def deckOf (shuffled : List String) : List Card :=
  shuffled.enum.map fun p =>
    { id := p.1, emoji := p.2, isFlipped := false, isMatched := false }

/-- A resolution callback scheduled by `setTimeout` in `handleCardClick`
(lines 127-136 for a match, 139-147 for a mismatch): it captures the two
flipped card ids and whether the emojis matched. -/
structure PendingCommit where
  ids : List Nat
  isMatch : Bool
deriving Repr, DecidableEq

/-- The React component state of `MemoryGame` (lines 69-79), plus the
queue of scheduled-but-not-yet-fired `setTimeout` callbacks. -/
structure GameState where
  cards : List Card
  flippedCards : List Nat
  stats : GameStats
  difficulty : Difficulty
  gameStarted : Bool
  isClickable : Bool
  pending : List PendingCommit
deriving Repr, DecidableEq

/-- Lookup cards.find(card => card.id === cardId) as used in `handleCardClick`
(lines 121-123) and, implicitly, to locate the rendered card a click
lands on. -/
def findCard (cards : List Card) (cardId : Nat) : Option Card :=
  cards.find? fun c => c.id == cardId

/-- Function initializeGame (lines 81-105): builds the deck from the shuffled
emoji list, clears the selection, zeroes all stats, re-enables clicking.
It does NOT touch `pending`: the source never stores a timeout id and
never calls `clearTimeout`, so scheduled callbacks survive a reset. -/
def initializeGame (shuffled : List String) (s : GameState) : GameState :=
  { s with
    cards := deckOf shuffled
    flippedCards := []
    stats := { moves := 0, matchCount := 0, timeElapsed := 0, isGameComplete := false }
    isClickable := true }

/-- Function handleCardClick (lines 107-150) up to the point where the timeout
callbacks are scheduled; the callbacks themselves are queued as a
`PendingCommit`. The emoji comparison reads the PRE-click `cards` (the
source closure captures the state variable before `setCards` lands).
The source dereferences `cards.find(...)!` unconditionally; the
`| _ => false` arm totalizes that lookup (unreachable when every flipped
id names a card of the deck). -/
def handleCardClick (cardId : Nat) (s : GameState) : GameState :=
  if s.flippedCards.length == 2 then s
  else
    let cards1 := s.cards.map fun c =>
      if c.id == cardId then { c with isFlipped := true } else c
    let newFlippedCards := s.flippedCards ++ [cardId]
    if newFlippedCards.length == 2 then
      let isMatch :=
        match newFlippedCards.map (findCard s.cards) with
        | [some c1, some c2] => c1.emoji == c2.emoji
        | _ => false
      { s with
        cards := cards1
        flippedCards := newFlippedCards
        isClickable := false
        stats := { s.stats with moves := s.stats.moves + 1 }
        pending := s.pending ++ [⟨newFlippedCards, isMatch⟩] }
    else
      { s with cards := cards1, flippedCards := newFlippedCards }

/-- Guard GameCard.handleClick (lines 22-26) composed with `handleCardClick`:
a click on a rendered card reaches the state handler only when the board
is clickable and the card is neither flipped nor matched. -/
def selectCard (s : GameState) (cardId : Nat) : GameState :=
  match findCard s.cards cardId with
  | none => s
  | some card =>
    if s.isClickable && !card.isFlipped && !card.isMatched then
      handleCardClick cardId s
    else s

/-- The match timeout body (lines 127-136): marks the captured ids
matched, increments the match counter, clears the selection, re-enables
clicking. -/
def applyMatchCommit (ids : List Nat) (s : GameState) : GameState :=
  { s with
    cards := s.cards.map fun c =>
      if ids.contains c.id then { c with isMatched := true } else c
    stats := { s.stats with matchCount := s.stats.matchCount + 1 }
    flippedCards := []
    isClickable := true }

/-- The mismatch timeout body (lines 139-147): flips the captured ids
back down, clears the selection, re-enables clicking; no counter
changes. -/
def applyMismatchCommit (ids : List Nat) (s : GameState) : GameState :=
  { s with
    cards := s.cards.map fun c =>
      if ids.contains c.id then { c with isFlipped := false } else c
    flippedCards := []
    isClickable := true }

/-- Firing the oldest scheduled timeout callback, against whatever the
CURRENT state is (the callbacks use functional `setX(prev => ...)`
updates, so they always read the state at fire time). -/
def firePending (s : GameState) : GameState :=
  match s.pending with
  | [] => s
  | p :: rest =>
    let s1 := { s with pending := rest }
    if p.isMatch then applyMatchCommit p.ids s1 else applyMismatchCommit p.ids s1

/-- One tick of the timer effect (lines 162-170): while the game is
started and not complete, `timeElapsed` grows by 1; otherwise the
interval is not installed and nothing changes. -/
def tickClock (s : GameState) : GameState :=
  if s.gameStarted && !s.stats.isGameComplete then
    { s with stats := { s.stats with timeElapsed := s.stats.timeElapsed + 1 } }
  else s

/-- Predicate cards.every(card => card.isMatched) from the completion
effect (line 174). -/
def allMatched (cards : List Card) : Bool :=
  cards.all fun c => c.isMatched

/-- The completion-check effect (lines 173-177): after a change to
`cards`, if the deck is nonempty and every card is matched, set
`isGameComplete`. -/
def completionEffect (s : GameState) : GameState :=
  if 0 < s.cards.length ∧ allMatched s.cards = true then
    { s with stats := { s.stats with isGameComplete := true } }
  else s

/-- Function startGame (lines 152-155): enters the board screen and initializes
a fresh session for the currently selected difficulty. -/
def startGame (shuffled : List String) (s : GameState) : GameState :=
  initializeGame shuffled { s with gameStarted := true }

/-- Function resetGame (lines 157-159). -/
def resetGame (shuffled : List String) (s : GameState) : GameState :=
  initializeGame shuffled s

/-- The Change Difficulty button (lines 285-287): `setGameStarted(false)`
returns to the start screen; the session is no longer rendered and the
only way forward is `startGame`, which reinitializes. -/
def changeDifficulty (s : GameState) : GameState :=
  { s with gameStarted := false }

/-- The external events the component reacts to. `select` is a click on
a card, `firePending` is a scheduled `setTimeout` callback firing,
`tick` is a timer interval tick, the rest are the UI buttons. The
`shuffled` argument of `start`/`reset` is the emoji order produced by
that invocation's `sort(() => Math.random() - 0.5)`. -/
inductive Event where
  | select (cardId : Nat)
  | firePending
  | tick
  | setDifficulty (d : Difficulty)
  | start (shuffled : List String)
  | reset (shuffled : List String)
  | changeDifficulty
deriving Repr

/-- One event handled to completion, including the completion-check
effect that React runs after the handler's `setCards` lands. -/
def step : Event → GameState → GameState
  | .select i, s => completionEffect (selectCard s i)
  | .firePending, s => completionEffect (firePending s)
  | .tick, s => tickClock s
  | .setDifficulty d, s => { s with difficulty := d }
  | .start sh, s => completionEffect (startGame sh s)
  | .reset sh, s => completionEffect (resetGame sh s)
  | .changeDifficulty, s => changeDifficulty s

/-- Events that can occur inside one session: everything except the
session-replacing `start`/`reset`. -/
def Event.isSessionEvent : Event → Bool
  | .start _ => false
  | .reset _ => false
  | _ => true

/-- States reachable from `s` by session events only (no reset/start). -/
inductive SessionReach : GameState → GameState → Prop where
  | refl (s : GameState) : SessionReach s s
  | next {s t : GameState} (e : Event) (he : e.isSessionEvent = true)
      (h : SessionReach s t) : SessionReach s (step e t)

/-- The state of the component before any interaction (lines 69-79). -/
def s0 : GameState :=
  { cards := []
    flippedCards := []
    stats := { moves := 0, matchCount := 0, timeElapsed := 0, isGameComplete := false }
    difficulty := .easy
    gameStarted := false
    isClickable := true
    pending := [] }

/-- The paired emoji list for easy mode, used with the identity
permutation as a concrete admissible shuffle in scenarios below. -/
def sEasy : List String := pairedEmojis .easy

/-- A freshly started easy session (identity shuffle): card 0 and card 8
carry the same emoji. -/
def stActive : GameState := step (.start sEasy) s0

/-- The session of `stActive` after the matching pair 0, 8 has been
selected: the match commit is scheduled but has not fired yet. -/
def preReset : GameState := step (.select 8) (step (.select 0) stActive)

/-- The state of `preReset` right after the player hits Reset Game while
the match commit is still pending. -/
def postReset : GameState := step (.reset sEasy) preReset

/-- The state of `postReset` once the stale timeout fires. -/
def postStale : GameState := step .firePending postReset

/-- A completed-looking state used to exercise the stopped clock. -/
def stDone : GameState :=
  { stActive with stats := { stActive.stats with isGameComplete := true } }

/-- The session of `stActive` right after the first card (id 0) has been
selected: one card flipped, awaiting the second pick. -/
def stOne : GameState := step (.select 0) stActive

/-- The completion invariant maintained by the completion-check effect:
the flag is set exactly when the deck is nonempty and fully matched. -/
def CompletionInv (s : GameState) : Prop :=
  s.stats.isGameComplete = true ↔ (0 < s.cards.length ∧ allMatched s.cards = true)

/-- C1: the claim says every difficulty yields a deck of `gridSize²`
cards with every present symbol on exactly two cards. The catalog
duplicates the dart emoji and holds only 18 entries, so the code
violates this: easy is fine (16 cards, dart twice), but on medium the
dart emoji appears on four cards, and on hard the deck has 36 cards
instead of the required 64. -/
theorem C1_deck_invariant_violated :
    ((deckOf (pairedEmojis .easy)).length = gridSize .easy * gridSize .easy
      ∧ (deckOf (pairedEmojis .easy)).countP (fun c => c.emoji == "🎯") = 2)
    ∧ ((deckOf (pairedEmojis .medium)).length = gridSize .medium * gridSize .medium
      ∧ (deckOf (pairedEmojis .medium)).countP (fun c => c.emoji == "🎯") = 4)
    ∧ ((deckOf (pairedEmojis .hard)).length = 36
      ∧ gridSize .hard * gridSize .hard = 64) := by
  decide

/-- C2: the claim says a catalog with fewer distinct symbols than
`gridSize²/2` makes deck construction fail with a configuration error
before the session starts. The catalog has 18 entries (17 distinct),
hard needs 32, yet `initializeGame` has no error path at all: `slice`
silently truncates and the session starts with a 36-card deck. -/
theorem C2_missing_config_error :
    CARD_EMOJIS.length = 18
    ∧ CARD_EMOJIS.dedup.length = 17
    ∧ totalCards .hard = 32
    ∧ (selectedEmojis .hard).length = 18
    ∧ (startGame (pairedEmojis .hard) { s0 with difficulty := .hard }).gameStarted = true
    ∧ (startGame (pairedEmojis .hard) { s0 with difficulty := .hard }).cards.length = 36 := by
  decide

/-- C3: the claim says a reset cancels any pending resolution commit so
the stale scheduled effect never mutates the new session. The source
never stores or clears the timeout, so after selecting the matching
pair 0, 8 and resetting before the commit fires, the stale callback
marks cards 0 and 8 of the NEW deck as matched and bumps the new
session's match counter to 1. -/
theorem C3_stale_commit_mutates_new_session :
    preReset.pending = [⟨[0, 8], true⟩]
    ∧ postReset.pending = [⟨[0, 8], true⟩]
    ∧ postReset.stats.matchCount = 0
    ∧ (findCard postReset.cards 0).map (fun c => c.isMatched) = some false
    ∧ postStale.stats.matchCount = 1
    ∧ (findCard postStale.cards 0).map (fun c => c.isMatched) = some true
    ∧ (findCard postStale.cards 8).map (fun c => c.isMatched) = some true := by
  decide

/-- C4: selecting a card that is already flipped face-up or already
matched is rejected by the GameCard guard in every state: the whole
session state is unchanged. -/
theorem C4_select_revealed_or_matched_noop (s : GameState) (i : Nat) (c : Card)
    (hc : findCard s.cards i = some c)
    (h : c.isFlipped = true ∨ c.isMatched = true) :
    selectCard s i = s := by
  unfold selectCard
  rw [hc]
  rcases h with h | h <;> simp [h]

/-- Witness for C4: in `preReset` card 0 is flipped face-up and clicking
it changes nothing. -/
theorem C4_witness :
    (findCard preReset.cards 0).map (fun c => c.isFlipped) = some true
    ∧ selectCard preReset 0 = preReset := by
  refine ⟨by decide, ?_⟩
  exact C4_select_revealed_or_matched_noop preReset 0
    { id := 0, emoji := "🎮", isFlipped := true, isMatched := false }
    (by decide) (Or.inl rfl)

/-- C5: while two selected cards are awaiting resolution
(`flippedCards.length == 2`), any further selection is a no-op leaving
the whole session state unchanged. -/
theorem C5_select_while_two_flipped_noop (s : GameState) (i : Nat)
    (h : s.flippedCards.length = 2) :
    selectCard s i = s := by
  unfold selectCard
  split
  · rfl
  · split
    · unfold handleCardClick
      simp [h]
    · rfl

/-- Witness for C5: in `preReset` two cards are flipped and clicking a
third card changes nothing. -/
theorem C5_witness :
    preReset.flippedCards.length = 2 ∧ selectCard preReset 3 = preReset :=
  ⟨by decide, C5_select_while_two_flipped_noop preReset 3 (by decide)⟩

/-- C8: the move counter never changes when the first card of a pair is
selected, and increases by exactly 1 when an accepted selection completes
the pair, match or mismatch alike. -/
theorem C8_move_counter (s : GameState) (i : Nat) (c : Card) :
    (s.flippedCards = [] → (selectCard s i).stats.moves = s.stats.moves)
    ∧ (s.flippedCards.length = 1 →
       findCard s.cards i = some c →
       c.isFlipped = false → c.isMatched = false → s.isClickable = true →
       (selectCard s i).stats.moves = s.stats.moves + 1) := by
  constructor
  · intro h0
    unfold selectCard
    split
    · rfl
    · split
      · unfold handleCardClick
        simp [h0]
      · rfl
  · intro h1 hc hf hm hk
    unfold selectCard
    rw [hc]
    simp only [hk, hf, hm, Bool.not_false, Bool.and_self, Bool.and_true, if_true]
    unfold handleCardClick
    simp [h1]

/-- Witness for C8: in the fresh session `stActive` the first selection
leaves the move counter at 0, and in `stOne` (one card flipped) the
second selection raises it to 1. -/
theorem C8_witness :
    ((selectCard stActive 0).stats.moves = stActive.stats.moves)
    ∧ ((selectCard stOne 3).stats.moves = stOne.stats.moves + 1) :=
  ⟨(C8_move_counter stActive 0 { id := 0, emoji := "🎮", isFlipped := false, isMatched := false }).1
      (by decide),
   (C8_move_counter stOne 3 { id := 3, emoji := "🎪", isFlipped := false, isMatched := false }).2
      (by decide) (by decide) rfl rfl (by decide)⟩

/-- The completion-check effect can only touch the completion flag:
every other observable field is preserved. -/
theorem completionEffect_preserves (s : GameState) :
    (completionEffect s).cards = s.cards
    ∧ (completionEffect s).flippedCards = s.flippedCards
    ∧ (completionEffect s).stats.moves = s.stats.moves
    ∧ (completionEffect s).stats.matchCount = s.stats.matchCount
    ∧ (completionEffect s).stats.timeElapsed = s.stats.timeElapsed
    ∧ (completionEffect s).difficulty = s.difficulty
    ∧ (completionEffect s).gameStarted = s.gameStarted
    ∧ (completionEffect s).isClickable = s.isClickable
    ∧ (completionEffect s).pending = s.pending := by
  unfold completionEffect
  split <;> simp

/-- Every card of a freshly built deck starts unmatched. -/
theorem deckOf_all_unmatched (sh : List String) :
    ∀ c ∈ deckOf sh, c.isMatched = false := by
  intro c hc
  unfold deckOf at hc
  rw [List.mem_map] at hc
  obtain ⟨p, _, rfl⟩ := hc
  rfl

/-- Running the completion-check effect on a freshly initialized session
changes nothing: the new deck cannot be fully matched. -/
theorem completionEffect_initializeGame (sh : List String) (s : GameState) :
    completionEffect (initializeGame sh s) = initializeGame sh s := by
  unfold completionEffect
  split
  · next h =>
    exfalso
    obtain ⟨hlen, hall⟩ := h
    unfold allMatched at hall
    rw [List.all_eq_true] at hall
    obtain ⟨c, hc⟩ := List.exists_mem_of_ne_nil _ (List.length_pos.mp hlen)
    have hfalse : c.isMatched = false := deckOf_all_unmatched sh c hc
    have htrue := hall c hc
    rw [hfalse] at htrue
    cases htrue
  · rfl

/-- C7: the session clock is stopped once the completion flag is true, a
tick in a started incomplete session advances elapsed time by exactly 1
second and changes nothing else, and both reset and restart return the
elapsed-time counter to 0. -/
theorem C7_session_clock (s : GameState) (sh : List String) :
    (s.stats.isGameComplete = true → tickClock s = s)
    ∧ (s.gameStarted = true → s.stats.isGameComplete = false →
        tickClock s
          = { s with stats := { s.stats with timeElapsed := s.stats.timeElapsed + 1 } })
    ∧ (resetGame sh s).stats.timeElapsed = 0
    ∧ (startGame sh s).stats.timeElapsed = 0 := by
  refine ⟨?_, ?_, rfl, rfl⟩
  · intro h
    unfold tickClock
    simp [h]
  · intro hg hc
    unfold tickClock
    simp [hg, hc]

/-- Witness for C7: ticking the completed state `stDone` changes nothing,
and ticking the active state `stActive` adds one second. -/
theorem C7_witness :
    (tickClock stDone = stDone)
    ∧ (tickClock stActive
        = { stActive with
            stats := { stActive.stats with timeElapsed := stActive.stats.timeElapsed + 1 } }) :=
  ⟨(C7_session_clock stDone sEasy).1 rfl,
   (C7_session_clock stActive sEasy).2.1 (by decide) (by decide)⟩

/-- C9: leaving the board with Change Difficulty and starting again with
a new difficulty yields a session whose deck, selection, move counter,
match counter, elapsed time and completion flag are all rebuilt from
scratch — only the (unrelated) pending-timeout queue of the source
survives, since the code never cancels timeouts. -/
theorem C9_change_difficulty_resets (s : GameState) (d : Difficulty) (sh : List String) :
    (changeDifficulty s).gameStarted = false
    ∧ step (.start sh) (step (.setDifficulty d) (step .changeDifficulty s))
      = { cards := deckOf sh
          flippedCards := []
          stats := { moves := 0, matchCount := 0, timeElapsed := 0, isGameComplete := false }
          difficulty := d
          gameStarted := true
          isClickable := true
          pending := s.pending } := by
  refine ⟨rfl, ?_⟩
  show completionEffect (initializeGame sh _) = _
  rw [completionEffect_initializeGame]
  rfl

/-- C10: when the mismatch timeout commits, the card at each deck
position keeps its id, emoji and isMatched value; its isFlipped flag is
forced to false exactly when its id is one of the two captured ids and
is untouched otherwise; and no counter changes. -/
theorem C10_mismatch_commit_frame (s : GameState) (ids : List Nat) (i : Nat)
    (hi : i < s.cards.length)
    (hi2 : i < (applyMismatchCommit ids s).cards.length) :
    ((applyMismatchCommit ids s).cards.get ⟨i, hi2⟩).id = (s.cards.get ⟨i, hi⟩).id
    ∧ ((applyMismatchCommit ids s).cards.get ⟨i, hi2⟩).emoji = (s.cards.get ⟨i, hi⟩).emoji
    ∧ ((applyMismatchCommit ids s).cards.get ⟨i, hi2⟩).isMatched
        = (s.cards.get ⟨i, hi⟩).isMatched
    ∧ ((applyMismatchCommit ids s).cards.get ⟨i, hi2⟩).isFlipped
        = (if ids.contains (s.cards.get ⟨i, hi⟩).id then false
           else (s.cards.get ⟨i, hi⟩).isFlipped)
    ∧ (applyMismatchCommit ids s).stats = s.stats
    ∧ (applyMismatchCommit ids s).cards.length = s.cards.length := by
  unfold applyMismatchCommit
  simp only [List.get_eq_getElem, List.getElem_map, List.length_map]
  split <;> simp

/-- Witness for C10: committing the mismatch pair 0, 8 in `stActive`
flips card 0 down, keeps its identity fields, and leaves card 3 alone. -/
theorem C10_witness :
    (((applyMismatchCommit [0, 8] stActive).cards.get ⟨3, by decide⟩).id
        = (stActive.cards.get ⟨3, by decide⟩).id
    ∧ ((applyMismatchCommit [0, 8] stActive).cards.get ⟨3, by decide⟩).emoji
        = (stActive.cards.get ⟨3, by decide⟩).emoji
    ∧ ((applyMismatchCommit [0, 8] stActive).cards.get ⟨3, by decide⟩).isMatched
        = (stActive.cards.get ⟨3, by decide⟩).isMatched
    ∧ ((applyMismatchCommit [0, 8] stActive).cards.get ⟨3, by decide⟩).isFlipped
        = (if List.contains [0, 8] (stActive.cards.get ⟨3, by decide⟩).id then false
           else (stActive.cards.get ⟨3, by decide⟩).isFlipped)
    ∧ (applyMismatchCommit [0, 8] stActive).stats = stActive.stats
    ∧ (applyMismatchCommit [0, 8] stActive).cards.length = stActive.cards.length) :=
  C10_mismatch_commit_frame stActive [0, 8] 3 (by decide) (by decide)

/-- A card map that never unsets isMatched preserves a fully matched
deck. -/
theorem allMatched_map_mono (l : List Card) (f : Card → Card)
    (hf : ∀ c, c.isMatched = true → (f c).isMatched = true)
    (h : allMatched l = true) : allMatched (l.map f) = true := by
  unfold allMatched at *
  rw [List.all_map, List.all_eq_true]
  rw [List.all_eq_true] at h
  intro c hc
  exact hf c (h c hc)

/-- Within a click, the deck length and the completion flag are
untouched and a fully matched deck stays fully matched. -/
theorem handleCardClick_effects (i : Nat) (s : GameState) :
    (handleCardClick i s).cards.length = s.cards.length
    ∧ (handleCardClick i s).stats.isGameComplete = s.stats.isGameComplete
    ∧ (allMatched s.cards = true → allMatched (handleCardClick i s).cards = true) := by
  refine ⟨?_, ?_, ?_⟩ <;> unfold handleCardClick
  · split
    · rfl
    · dsimp only
      split <;> simp
  · split
    · rfl
    · dsimp only
      split <;> rfl
  · intro h
    split
    · exact h
    · dsimp only
      split <;>
        exact allMatched_map_mono _ _
          (fun c hcm => by by_cases hid : (c.id == i) = true <;> simp [hid, hcm]) h

/-- The same three facts for a full guarded selection. -/
theorem selectCard_effects (s : GameState) (i : Nat) :
    (selectCard s i).cards.length = s.cards.length
    ∧ (selectCard s i).stats.isGameComplete = s.stats.isGameComplete
    ∧ (allMatched s.cards = true → allMatched (selectCard s i).cards = true) := by
  unfold selectCard
  split
  · exact ⟨rfl, rfl, fun h => h⟩
  · split
    · exact handleCardClick_effects i s
    · exact ⟨rfl, rfl, fun h => h⟩

/-- The same three facts for firing a scheduled resolution commit: the
match commit only sets isMatched, the mismatch commit only clears
isFlipped, and neither touches the completion flag. -/
theorem firePending_effects (s : GameState) :
    (firePending s).cards.length = s.cards.length
    ∧ (firePending s).stats.isGameComplete = s.stats.isGameComplete
    ∧ (allMatched s.cards = true → allMatched (firePending s).cards = true) := by
  unfold firePending
  split
  · exact ⟨rfl, rfl, fun h => h⟩
  · split
    · refine ⟨by simp [applyMatchCommit], rfl, ?_⟩
      refine allMatched_map_mono _ _ (fun c hcm => ?_)
      split <;> simp [hcm]
    · refine ⟨by simp [applyMismatchCommit], rfl, ?_⟩
      refine allMatched_map_mono _ _ (fun c hcm => ?_)
      split <;> simp [hcm]

/-- The completion invariant survives the completion-check effect run
after any mutation that preserves deck length, preserves the flag, and
never unmatches a fully matched deck. -/
theorem completionInv_effect (s s1 : GameState)
    (hflag : s1.stats.isGameComplete = s.stats.isGameComplete)
    (hlen : s1.cards.length = s.cards.length)
    (hmono : allMatched s.cards = true → allMatched s1.cards = true)
    (hinv : CompletionInv s) :
    CompletionInv (completionEffect s1) := by
  unfold CompletionInv at *
  unfold completionEffect
  split
  · next hcond => simpa using hcond
  · next hcond =>
    constructor
    · intro hf
      exfalso
      apply hcond
      have hrhs := hinv.mp (hflag.symm.trans hf)
      exact ⟨by rw [hlen]; exact hrhs.1, hmono hrhs.2⟩
    · intro h
      exact absurd h hcond

/-- The completion invariant survives a clock tick. -/
theorem completionInv_tick (s : GameState) (h : CompletionInv s) :
    CompletionInv (tickClock s) := by
  unfold CompletionInv at *
  unfold tickClock
  split <;> simpa using h

/-- The completion invariant holds in every state reachable from an
invariant state by session events. -/
theorem sessionReach_completionInv (u s : GameState)
    (h0 : CompletionInv u) (hr : SessionReach u s) :
    CompletionInv s := by
  induction hr with
  | refl => exact h0
  | next e he h ih =>
    cases e with
    | select i =>
      obtain ⟨hlen, hflag, hmono⟩ := selectCard_effects _ i
      exact completionInv_effect _ _ hflag hlen hmono ih
    | firePending =>
      obtain ⟨hlen, hflag, hmono⟩ := firePending_effects _
      exact completionInv_effect _ _ hflag hlen hmono ih
    | tick => exact completionInv_tick _ ih
    | setDifficulty d => exact ih
    | changeDifficulty => exact ih
    | start sh => simp [Event.isSessionEvent] at he
    | reset sh => simp [Event.isSessionEvent] at he

/-- Session events never shrink or grow the deck. -/
theorem sessionReach_cards_length (u s : GameState) (hr : SessionReach u s) :
    s.cards.length = u.cards.length := by
  induction hr with
  | refl => rfl
  | next e he h ih =>
    rw [← ih]
    cases e with
    | select i =>
      show (completionEffect (selectCard _ i)).cards.length = _
      rw [(completionEffect_preserves _).1]
      exact (selectCard_effects _ i).1
    | firePending =>
      show (completionEffect (firePending _)).cards.length = _
      rw [(completionEffect_preserves _).1]
      exact (firePending_effects _).1
    | tick =>
      show (tickClock _).cards.length = _
      unfold tickClock
      split <;> rfl
    | setDifficulty d => rfl
    | changeDifficulty => rfl
    | start sh => simp [Event.isSessionEvent] at he
    | reset sh => simp [Event.isSessionEvent] at he

/-- The completion-check effect never clears a set flag. -/
theorem completionEffect_flag_mono (s : GameState)
    (h : s.stats.isGameComplete = true) :
    (completionEffect s).stats.isGameComplete = true := by
  unfold completionEffect
  split
  · rfl
  · exact h

/-- No session event clears a set completion flag. -/
theorem sessionStep_flag_mono (e : Event) (he : e.isSessionEvent = true)
    (t : GameState) (h : t.stats.isGameComplete = true) :
    (step e t).stats.isGameComplete = true := by
  cases e with
  | select i => exact completionEffect_flag_mono _ ((selectCard_effects t i).2.1.trans h)
  | firePending => exact completionEffect_flag_mono _ ((firePending_effects t).2.1.trans h)
  | tick =>
    show (tickClock t).stats.isGameComplete = true
    unfold tickClock
    simp [h]
  | setDifficulty d => exact h
  | changeDifficulty => exact h
  | start sh => simp [Event.isSessionEvent] at he
  | reset sh => simp [Event.isSessionEvent] at he

/-- Once set, the completion flag survives any run of session events. -/
theorem sessionReach_flag_mono (u s : GameState)
    (h0 : u.stats.isGameComplete = true) (hr : SessionReach u s) :
    s.stats.isGameComplete = true := by
  induction hr with
  | refl => exact h0
  | next e he h ih => exact sessionStep_flag_mono e he _ ih

/-- C6: in every state reachable inside one session from an initialized
state with a nonempty deck, the completion flag is true exactly when
every card is matched; and once true, it stays true until the session
is reset. -/
theorem C6_completion_flag (u s : GameState)
    (h0 : CompletionInv u) (hne : 0 < u.cards.length)
    (hr : SessionReach u s) :
    (s.stats.isGameComplete = true ↔ allMatched s.cards = true)
    ∧ (u.stats.isGameComplete = true → s.stats.isGameComplete = true) := by
  have hinv := sessionReach_completionInv u s h0 hr
  have hlen := sessionReach_cards_length u s hr
  unfold CompletionInv at hinv
  refine ⟨⟨fun hf => (hinv.mp hf).2, fun ha => hinv.mpr ⟨by rw [hlen]; exact hne, ha⟩⟩, ?_⟩
  intro hf
  exact sessionReach_flag_mono u s hf hr

/-- Witness for C6 at the concrete initialized state `stActive`:
the invariant hypotheses hold there and the equivalence follows. -/
theorem C6_witness :
    (stActive.stats.isGameComplete = true ↔ allMatched stActive.cards = true)
    ∧ (stActive.stats.isGameComplete = true → stActive.stats.isGameComplete = true) :=
  C6_completion_flag stActive stActive (by unfold CompletionInv; decide) (by decide)
    (SessionReach.refl stActive)
